import Mathlib

/-!
Verification of the live display/update engine of the MCS8 control
application (`plot_display.py`): change detection per channel, axis
planning, the adaptive polling loop, and the scheduler's rebuild/patch
decisions.

Modelling conventions, stated once:
* machine floats become rationals (`ℚ`); raw device counts are likewise
  embedded as rationals;
* `time.time()` values are passed in explicitly as a `now : ℚ` argument;
* the MD5 content hash of `_detect_1d_changes` is idealised as injective:
  the stored `data_hash` is `Option (List ℚ)` holding the hashed flat data,
  with `none` standing for the dataclass default `""` (an MD5 hex digest is
  never the empty string, so the default matches no computed hash);
* `np.std` is irrational in general, so statistical signatures store the
  variance (std squared) in the fourth slot.  Squaring is a strictly
  monotone bijection on the nonnegatives, so equality of signatures is
  unaffected; no theorem below depends on the magnitude of this slot.
-/

/-- Minimum of a list of rationals, `np.min`; the `[]` case (on which numpy
raises) is given the junk value 0 and is never reached by active channels,
whose data contains a nonzero sample. -/
def listMin : List ℚ → ℚ
  | [] => 0
  | x :: xs => xs.foldl min x

/-- Maximum of a list of rationals, `np.max`, with the same `[]` convention
as `listMin`. -/
def listMax : List ℚ → ℚ
  | [] => 0
  | x :: xs => xs.foldl max x

/-- Arithmetic mean, `np.mean` (division by zero yields 0 on `[]`). -/
def listMean (l : List ℚ) : ℚ := l.sum / l.length

/-- Population variance, the square of `np.std` (ddof = 0). -/
def listVar (l : List ℚ) : ℚ :=
  (l.map (fun x => (x - listMean l) * (x - listMean l))).sum / l.length

/-- A numpy array as the display engine sees one: 1-dimensional count data,
or 2-dimensional data produced by the `reshape((ydim, -1))` in
`_get_channel_data`. -/
inductive NDArray where
  | one (l : List ℚ)
  | two (m : List (List ℚ))
deriving DecidableEq, Repr

/-- Dimensionality, `ndarray.ndim`. -/
def ndim : NDArray → ℕ
  | .one _ => 1
  | .two _ => 2

/-- Shape, `ndarray.shape` (the Python tuple `()`/`(n,)`/`(r, c)` becomes a
list; rows produced by the pipeline are rectangular). -/
def ndshape : NDArray → List ℕ
  | .one l => [l.length]
  | .two m => [m.length, (m.headD []).length]

/-- Row-major flattening; for `tobytes`-style content comparison and for
whole-array statistics. -/
def ndFlatten : NDArray → List ℚ
  | .one l => l
  | .two m => m.foldr (· ++ ·) []

/-- The leading-axis squeeze at the top of `_detect_1d_changes` and
`_update_1d_channel_efficient`: `if data.ndim > 1 and data.shape[0] == 1:
data = data[0]`. -/
def squeeze1d : NDArray → NDArray
  | .two [row] => .one row
  | d => d

/-- The change classification enum `ChangeType` of `plot_display.py`. -/
inductive ChangeType where
  | NO_CHANGE
  | DATA_CHANGE
  | SCALE_CHANGE
  | DIMENSION_CHANGE
deriving DecidableEq, Repr

/-- The per-channel cache dataclass `ChannelState`, with the source's field
defaults (`data_hash = ""` becomes `none`, `shape = ()` becomes `[]`). -/
structure ChannelState where
  data_hash : Option (List ℚ) := none
  shape : List ℕ := []
  data_range : ℚ × ℚ := (0, 0)
  statistical_signature : ℚ × ℚ × ℚ × ℚ := (0, 0, 0, 0)
  last_update : ℚ := 0
  x_limits : ℚ × ℚ := (0, 1)
  y_limits : ℚ × ℚ := (0, 1)
  update_count : ℕ := 0
deriving DecidableEq, Repr

/-- The tuning attributes set by `__init_efficient_updates__` (flattened
from instance attributes and the `axis_scaling` dict). -/
structure EfficientConfig where
  adaptive_update_interval : ℚ := 1/10
  max_update_interval : ℚ := 2
  min_update_interval : ℚ := 3/10
  change_threshold : ℚ := 1/100
  stability_frames : ℕ := 5
  y_margin_factor : ℚ := 5/100
  y_stability_threshold : ℚ := 1/100
  x_auto_extend : Bool := true
  adaptive_margins : Bool := true
deriving DecidableEq, Repr

/-- The defaults hard-coded in `__init_efficient_updates__`. -/
def defaultEfficientConfig : EfficientConfig := {}

/-- The `self.channel_states` dict, as an association list keyed by channel
id (Python dicts keep one entry per key; insertion order is preserved). -/
def ChannelStates : Type := List (ℕ × ChannelState)

instance : DecidableEq ChannelStates := by
  unfold ChannelStates; infer_instance

/-- Dictionary read, `d.get(ch)`. -/
def getA {α : Type} (ch : ℕ) : List (ℕ × α) → Option α
  | [] => none
  | (k, v) :: t => if ch = k then some v else getA ch t

/-- Dictionary write, `d[ch] = v`: replaces the entry in place or appends a
new one, like a Python dict. -/
def setA {α : Type} (ch : ℕ) (v : α) : List (ℕ × α) → List (ℕ × α)
  | [] => [(ch, v)]
  | (k, w) :: t => if k = ch then (k, v) :: t else (k, w) :: setA ch v t

/-- The `ChannelState` the detectors work with for a channel: the stored
one, or the dataclass default when the channel is not yet cached. -/
def stateOf (states : ChannelStates) (ch : ℕ) : ChannelState :=
  (getA ch states).getD {}

/-- The numpy default absolute tolerance of `np.allclose`. -/
def npAtol : ℚ := 1/100000000

/-- Componentwise `np.allclose(a, b, rtol)` on a statistical signature:
every slot satisfies `|a - b| <= atol + rtol * |b|`. -/
def allclose4 (rtol : ℚ) (a b : ℚ × ℚ × ℚ × ℚ) : Bool :=
  decide (|a.1 - b.1| ≤ npAtol + rtol * |b.1| ∧
          |a.2.1 - b.2.1| ≤ npAtol + rtol * |b.2.1| ∧
          |a.2.2.1 - b.2.2.1| ≤ npAtol + rtol * |b.2.2.1| ∧
          |a.2.2.2 - b.2.2.2| ≤ npAtol + rtol * |b.2.2.2|)

/-- Embedding of `_significant_scale_change`.  The source's degenerate guard
(`not old_stats or len(old_stats) < 4 ...`) can never fire: the stored
signature is always a 4-tuple and a nonempty Python tuple is truthy, so the
guard is dropped here. -/
def significant_scale_change (cfg : EfficientConfig)
    (old_stats new_stats : ℚ × ℚ × ℚ × ℚ) : Bool :=
  let (old_min, old_max, old_mean, _) := old_stats
  let (new_min, new_max, new_mean, _) := new_stats
  let range_change : ℚ :=
    if old_max ≠ old_min then
      |(new_max - new_min) - (old_max - old_min)| / (old_max - old_min)
    else if new_max ≠ new_min then 1 else 0
  let mean_change : ℚ :=
    if old_mean ≠ 0 then |new_mean - old_mean| / |old_mean|
    else if new_mean ≠ 0 then 1 else 0
  decide (range_change > cfg.y_stability_threshold ∨
          mean_change > cfg.y_stability_threshold)

/-- Embedding of `_needs_axis_expansion`: the data approaches a boundary
when it comes within 10% of the current limit range of it. -/
def needs_axis_expansion (data_min data_max : ℚ) (current_limits : ℚ × ℚ) :
    Bool :=
  let buffer := (current_limits.2 - current_limits.1) * (1/10)
  decide (data_min < current_limits.1 + buffer ∨
          data_max > current_limits.2 - buffer)

/-- Embedding of `_calculate_optimal_y_limits`.  The Python condition
`state.y_limits and ...` is always entered with a truthy (nonempty) tuple,
so only the update-count and expansion tests remain.  Per the header note,
`np.std(data) > 0` is rendered as `listVar data > 0` (equivalent), and the
adaptive margin uses the variance where the source divides the std by the
range; the margin magnitude plays no part in any theorem below. -/
def calculate_optimal_y_limits (cfg : EfficientConfig) (data : List ℚ)
    (state : ChannelState) : ℚ × ℚ :=
  let data_min := listMin data
  let data_max := listMax data
  if data_min = data_max then
    let center := data_min
    let margin := max 1 (|center| * (1/10))
    (center - margin, center + margin)
  else
    let data_range := data_max - data_min
    let margin_factor :=
      if cfg.adaptive_margins then
        if listVar data > 0 then
          cfg.y_margin_factor * (1 + listVar data / data_range)
        else cfg.y_margin_factor
      else cfg.y_margin_factor
    let margin := data_range * margin_factor
    if state.update_count > cfg.stability_frames ∧
        needs_axis_expansion data_min data_max state.y_limits = false then
      state.y_limits
    else
      (data_min - margin, data_max + margin)

/-- The initial y-limits applied per 1D subplot by
`_create_figure_and_plots` (lines 176-187 of `plot_display.py`): constant
data is centred with margin `max(1, 0.1 * |value|)`, and otherwise the
limits are `(data_min - margin, data_max + 2 * margin)` with
`margin = 5%` of the data range. -/
def create_plot_y_limits (data : List ℚ) : ℚ × ℚ :=
  let data_min := listMin data
  let data_max := listMax data
  if data_min = data_max then
    let y_margin := max 1 (|data_min| * (1/10))
    (data_min - y_margin, data_max + y_margin)
  else
    let margin := (data_max - data_min) * (5/100)
    (data_min - margin, data_max + 2 * margin)

/-- Embedding of `_detect_1d_changes`: squeeze a leading unit axis, create a
default `ChannelState` for unseen channels, compare the (idealised) MD5
content hash, and on a mismatch classify the change and write back the
refreshed state (hash, shape, range, signature, timestamp, update count;
axis limits untouched). -/
def detect_1d_changes (cfg : EfficientConfig) (now : ℚ) (channel : ℕ)
    (data0 : NDArray) (states : ChannelStates) : ChannelStates × ChangeType :=
  let data := squeeze1d data0
  let states0 := if (getA channel states).isSome then states
                 else setA channel {} states
  let state := (getA channel states0).getD {}
  let current_hash : Option (List ℚ) := some (ndFlatten data)
  if current_hash = state.data_hash then
    (states0, ChangeType.NO_CHANGE)
  else
    let current_shape := ndshape data
    let current_range := (listMin (ndFlatten data), listMax (ndFlatten data))
    let current_stats := (current_range.1, current_range.2,
                          listMean (ndFlatten data), listVar (ndFlatten data))
    let change_type :=
      if current_shape ≠ state.shape then ChangeType.DIMENSION_CHANGE
      else if significant_scale_change cfg state.statistical_signature
              current_stats then ChangeType.SCALE_CHANGE
      else ChangeType.DATA_CHANGE
    let state' := { state with
      data_hash := current_hash
      shape := current_shape
      data_range := current_range
      statistical_signature := current_stats
      last_update := now
      update_count := state.update_count + 1 }
    (setA channel state' states0, change_type)

/-- Embedding of `_detect_2d_changes`: data of dimension at most 1 is
reported unchanged without touching any state; otherwise shape plus the
statistical signature (within `rtol = change_threshold`, `np.allclose`)
decide, and on a change only shape, signature, timestamp and update count
are written back (the 2D path maintains no hash and no `data_range`). -/
def detect_2d_changes (cfg : EfficientConfig) (now : ℚ) (channel : ℕ)
    (data : NDArray) (states : ChannelStates) : ChannelStates × ChangeType :=
  if ndim data ≤ 1 then (states, ChangeType.NO_CHANGE)
  else
    let states0 := if (getA channel states).isSome then states
                   else setA channel {} states
    let state := (getA channel states0).getD {}
    let current_shape := ndshape data
    let current_stats := (listMin (ndFlatten data), listMax (ndFlatten data),
                          listMean (ndFlatten data), listVar (ndFlatten data))
    if current_shape = state.shape ∧
        allclose4 cfg.change_threshold current_stats
          state.statistical_signature = true then
      (states0, ChangeType.NO_CHANGE)
    else
      let change_type :=
        if current_shape ≠ state.shape then ChangeType.DIMENSION_CHANGE
        else if significant_scale_change cfg state.statistical_signature
                current_stats then ChangeType.SCALE_CHANGE
        else ChangeType.DATA_CHANGE
      let state' := { state with
        shape := current_shape
        statistical_signature := current_stats
        last_update := now
        update_count := state.update_count + 1 }
      (setA channel state' states0, change_type)

/-- Render-surface and controller operations recorded by the UI-thread
callbacks; the order of a trace is the order of the corresponding calls in
the Python source. -/
inductive RenderOp where
  | setLineData (ch : ℕ)
  | setXLim (ch : ℕ)
  | setYLim (ch : ℕ)
  | imageUpdate (ch : ℕ)
  | drawIdle
  | resetCanvas
  | createDisplay
  | logError
deriving DecidableEq, Repr

/-- Embedding of `_update_1d_channel_efficient` as a trace of render
operations plus the updated `ChannelState` and `channel_cache` entry.  The
early return fires when the channel has no line or axis; otherwise the line
data is always rewritten in place, and only `DIMENSION_CHANGE` or
`SCALE_CHANGE` touch the axis limits (x when the length changed against the
cache, y via `_calculate_optimal_y_limits`).  The 1D scheduler path always
supplies 1-dimensional data, so flattening the squeezed array is the
identity on real inputs. -/
def update_1d_channel_efficient (cfg : EfficientConfig)
    (lines axes : List ℕ) (cache : List (ℕ × List ℚ)) (ch : ℕ)
    (change : ChangeType) (data0 : NDArray) (state : ChannelState) :
    List RenderOp × ChannelState × List (ℕ × List ℚ) :=
  if ch ∈ lines ∧ ch ∈ axes then
    let data := ndFlatten (squeeze1d data0)
    let cachedLen := ((getA ch cache).getD []).length
    let axisPart :=
      if change = ChangeType.DIMENSION_CHANGE ∨
          change = ChangeType.SCALE_CHANGE then
        let xPart :=
          if data.length ≠ cachedLen then
            ([RenderOp.setXLim ch],
             { state with x_limits := (0, (data.length : ℚ)) })
          else ([], state)
        let new_y_limits := calculate_optimal_y_limits cfg data xPart.2
        if new_y_limits ≠ xPart.2.y_limits then
          (xPart.1 ++ [RenderOp.setYLim ch],
           { xPart.2 with y_limits := new_y_limits })
        else xPart
      else ([], state)
    (RenderOp.setLineData ch :: axisPart.1, axisPart.2, setA ch data cache)
  else ([], state, cache)

/-- Embedding of `_update_2d_channel_efficient`: for a channel with an
image entity, any non-`DATA_CHANGE` classification delegates to
`_update_2d_3d_image`, an in-place image data/norm refresh (recorded as
`imageUpdate`); `DATA_CHANGE` alone is skipped. -/
def update_2d_channel_efficient (images : List ℕ) (ch : ℕ)
    (change : ChangeType) : List RenderOp :=
  if ch ∈ images ∧ change ≠ ChangeType.DATA_CHANGE then
    [RenderOp.imageUpdate ch]
  else []

/-- The `try/except` of `update_on_main_thread` inside
`_update_changed_channels`: `done` abstracts the operations the body
performed before returning or raising.  On success the canvas is refreshed
(`draw_idle`); on an exception the handler only prints the error — it
schedules no rebuild and no other recovery. -/
def update_changed_channels_handler (done : List RenderOp) (failed : Bool) :
    List RenderOp :=
  if failed then done ++ [RenderOp.logError]
  else done ++ [RenderOp.drawIdle]

/-- The outer `try/except` of `MCSDisplay.update_plot`: when the update body
raises, the handler logs and falls back to `create_display`, itself guarded
so that a second failure is only logged. -/
def update_plot_exception_handler (done : List RenderOp) (failed : Bool)
    (rebuildFails : Bool) : List RenderOp :=
  if failed then
    done ++ [RenderOp.logError, RenderOp.createDisplay] ++
      (if rebuildFails then [RenderOp.logError] else [])
  else done

/-- Actions a scheduler cycle posts to the UI thread via `after_idle`. -/
inductive UIAction where
  | patchBatch (channels : List (ℕ × ChangeType × Bool))
  | forceRebuild
deriving DecidableEq, Repr

/-- The per-channel classification loop of `_check_and_update_channels`:
2D channels go through `_detect_2d_changes`, 1D channels through
`_detect_1d_changes`, threading the state map left to right and collecting
every non-`NO_CHANGE` result as `(channel, change_type, is2d)`. -/
def classify_channels (cfg : EfficientConfig) (now : ℚ) :
    List (ℕ × NDArray × Bool) → ChannelStates →
    ChannelStates × List (ℕ × ChangeType × Bool)
  | [], states => (states, [])
  | (ch, d, is2d) :: rest, states =>
    let dres := if is2d then detect_2d_changes cfg now ch d states
                else detect_1d_changes cfg now ch d states
    let rres := classify_channels cfg now rest dres.1
    (rres.1,
     (if dres.2 = ChangeType.NO_CHANGE then [] else [(ch, dres.2, is2d)]) ++
       rres.2)

/-- Python `set(a) == set(b)` on channel-id lists. -/
def sameKeySet (a b : List ℕ) : Bool :=
  a.all (fun x => b.contains x) && b.all (fun x => a.contains x)

/-- Embedding of `_check_and_update_channels` for one poll cycle: classify
every active channel (mutating the state map), schedule one batched patch
callback when anything changed, and afterwards compare the polled active
set with the key set of the (already mutated) state map — a mismatch
additionally schedules `force_rebuild` and reports a change.  Returns the
new state map, the scheduled UI actions in submission order, and the
cycle's `changes_detected` flag. -/
def check_and_update_channels (cfg : EfficientConfig) (now : ℚ)
    (poll : List (ℕ × NDArray × Bool)) (states : ChannelStates) :
    ChannelStates × List UIAction × Bool :=
  let cres := classify_channels cfg now poll states
  let patchActs : List UIAction :=
    if cres.2 = [] then [] else [UIAction.patchBatch cres.2]
  if sameKeySet (poll.map Prod.fst) (cres.1.map Prod.fst) then
    (cres.1, patchActs, decide (¬cres.2 = []))
  else
    (cres.1, patchActs ++ [UIAction.forceRebuild], true)

/-- The mutable pair `current_interval` / `no_change_count` threaded through
`_update_loop`. -/
structure LoopState where
  current_interval : ℚ
  no_change_count : ℕ
deriving DecidableEq, Repr

/-- The loop's entry state: the first wait already uses
`adaptive_update_interval`. -/
def loop_init (cfg : EfficientConfig) : LoopState :=
  ⟨cfg.adaptive_update_interval, 0⟩

/-- What one cycle of `_update_loop` observed. -/
inductive CycleOutcome where
  | changes
  | noChanges
  | exception
deriving DecidableEq, Repr

/-- The adaptive-interval update of one `_update_loop` cycle: a change
shrinks the interval by 0.9 clamped below at `min_update_interval` and
resets the no-change run; a quiet cycle extends the run and, once it
exceeds `stability_frames`, grows the interval by 1.1 clamped above at
`max_update_interval`; a caught exception resets the interval to the base
`adaptive_update_interval` (the run length is left as is). -/
def loop_step (cfg : EfficientConfig) (s : LoopState) :
    CycleOutcome → LoopState
  | .changes =>
      ⟨max cfg.min_update_interval (s.current_interval * (9/10)), 0⟩
  | .noChanges =>
      let n := s.no_change_count + 1
      if n > cfg.stability_frames then
        ⟨min cfg.max_update_interval (s.current_interval * (11/10)), n⟩
      else ⟨s.current_interval, n⟩
  | .exception => ⟨cfg.adaptive_update_interval, s.no_change_count⟩

/-- Run `_update_loop` over a sequence of observed cycle outcomes. -/
def loop_run (cfg : EfficientConfig) (os : List CycleOutcome) : LoopState :=
  os.foldl (loop_step cfg) (loop_init cfg)

/-- The control state of the efficient-update thread machinery. -/
structure UpdateSystem where
  update_running : Bool := false
  stop_event_set : Bool := false
  thread_count : ℕ := 0
  inited : Bool := false
  channel_states : ChannelStates := []
deriving DecidableEq

/-- Embedding of `__init_efficient_updates__`: resets the state map, the
stop event and the running flag (configuration re-initialisation is kept in
`EfficientConfig` separately; no thread is touched). -/
def init_efficient_updates (s : UpdateSystem) : UpdateSystem :=
  { s with channel_states := [], update_running := false,
           stop_event_set := false, inited := true }

/-- Embedding of `start_efficient_updates`: an already-running system is
returned untouched; otherwise the system is initialised on first use, the
stop event is cleared, the running flag set, and one new update thread
started. -/
def start_efficient_updates (s : UpdateSystem) : UpdateSystem :=
  if s.update_running then s
  else
    let s1 := if s.inited then s else init_efficient_updates s
    { s1 with stop_event_set := false, update_running := true,
              thread_count := s1.thread_count + 1 }

/-- Acquisition settings the display reads per channel:
`get_acq_setting(ch).range` and its `xdim` attribute (0 when absent). -/
structure AcqSetting where
  range : ℕ
  xdim : ℕ
deriving DecidableEq, Repr

/-- Split a flat block into `rows` rows of `cols` entries: numpy
`reshape((rows, -1))` with `cols` the inferred second dimension. -/
def reshape2d (rows cols : ℕ) (l : List ℚ) : List (List ℚ) :=
  match rows with
  | 0 => []
  | r + 1 => l.take cols :: reshape2d r cols (l.drop cols)

/-- The per-channel body of `_get_channel_data`: an all-zero block marks the
channel inactive (`none`); a nonzero `xdim` reshapes the block to
`(int(range/xdim), -1)` rows and flags the channel 2D, where a reshape that
does not divide evenly raises and the surrounding `except` skips the
channel; `xdim = 0` leaves the block 1D. -/
def process_channel (acq : AcqSetting) (block : List ℚ) :
    Option (NDArray × Bool) :=
  if block.any (fun x => decide (x ≠ 0)) then
    if 0 < acq.xdim then
      let ydim := acq.range / acq.xdim
      if 0 < ydim ∧ ydim ∣ block.length then
        some (NDArray.two (reshape2d ydim (block.length / ydim) block), true)
      else none
    else some (NDArray.one block, false)
  else none

/-- Kind of render entity `create_display` builds for a channel. -/
inductive EntityKind where
  | line
  | image
deriving DecidableEq, Repr

/-- The render entities produced by `create_display`:
`_create_figure_and_plots` makes one line subplot per non-2D channel, and
`_create_2d_3d_tab` makes one image entity per 2D channel with more than
one dimension. -/
def create_display_entities (chs : List (ℕ × NDArray × Bool)) :
    List (ℕ × EntityKind) :=
  ((chs.filter fun c => !c.2.2).map fun c => (c.1, EntityKind.line)) ++
    ((chs.filter fun c => c.2.2 && decide (1 < ndim c.2.1)).map
      fun c => (c.1, EntityKind.image))

/-! Helper lemmas. -/

theorem getA_setA_self {α : Type} (ch : ℕ) (v : α) (l : List (ℕ × α)) :
    getA ch (setA ch v l) = some v := by
  induction l with
  | nil => simp [setA, getA]
  | cons p t ih =>
      obtain ⟨k, w⟩ := p
      by_cases h : k = ch
      · simp [setA, getA, h]
      · simp [setA, getA, h, Ne.symm h, ih]

theorem allclose4_refl {rtol : ℚ} (h : 0 ≤ rtol) (a : ℚ × ℚ × ℚ × ℚ) :
    allclose4 rtol a a = true := by
  have hx : ∀ x : ℚ, (0 : ℚ) ≤ npAtol + rtol * |x| := fun x =>
    add_nonneg (by norm_num [npAtol]) (mul_nonneg h (abs_nonneg _))
  simp [allclose4, hx]

theorem reshape2d_length (rows cols : ℕ) (l : List ℚ) :
    (reshape2d rows cols l).length = rows := by
  induction rows generalizing l with
  | zero => simp [reshape2d]
  | succ r ih => simp [reshape2d, ih]

theorem reshape2d_headD_length (rows cols : ℕ) (l : List ℚ)
    (hrows : 0 < rows) (hcols : cols ≤ l.length) :
    ((reshape2d rows cols l).headD []).length = cols := by
  cases rows with
  | zero => exact absurd hrows (lt_irrefl 0)
  | succ r => simp [reshape2d, List.length_take, min_eq_left hcols]

/-- For configurations whose base interval does not exceed the maximum, one
loop cycle keeps the interval between `min(adaptive, min_update_interval)`
and `max_update_interval`. -/
theorem loop_step_bounds (cfg : EfficientConfig)
    (h0 : 0 ≤ cfg.adaptive_update_interval)
    (h1 : 0 ≤ cfg.min_update_interval)
    (h2 : cfg.min_update_interval ≤ cfg.max_update_interval)
    (h3 : cfg.adaptive_update_interval ≤ cfg.max_update_interval)
    (s : LoopState)
    (hlo : min cfg.adaptive_update_interval cfg.min_update_interval ≤
      s.current_interval)
    (hhi : s.current_interval ≤ cfg.max_update_interval)
    (o : CycleOutcome) :
    min cfg.adaptive_update_interval cfg.min_update_interval ≤
        (loop_step cfg s o).current_interval ∧
      (loop_step cfg s o).current_interval ≤ cfg.max_update_interval := by
  have hpos : (0 : ℚ) ≤ s.current_interval :=
    le_trans (le_min h0 h1) hlo
  cases o with
  | changes =>
      refine ⟨le_trans (min_le_right _ _) (le_max_left _ _), ?_⟩
      exact max_le h2
        (le_trans (mul_le_of_le_one_right hpos (by norm_num)) hhi)
  | noChanges =>
      by_cases hn : s.no_change_count + 1 > cfg.stability_frames
      · refine ⟨?_, ?_⟩
        · simp only [loop_step, hn, if_pos]
          exact le_min (le_trans (min_le_left _ _) h3)
            (le_trans hlo (le_mul_of_one_le_right hpos (by norm_num)))
        · simp only [loop_step, hn, if_pos]
          exact min_le_left _ _
      · simp only [loop_step, hn, if_neg, not_false_iff]
        exact ⟨hlo, hhi⟩
  | exception => exact ⟨min_le_left _ _, h3⟩

/-- C3 — corrected.  The interval of `_update_loop` is confined to
`[min(adaptive_update_interval, min_update_interval), max_update_interval]`
(not to `[min_update_interval, max_update_interval]`: the very first wait
and every exception recovery use the base `adaptive_update_interval`, which
with the shipped defaults is 0.1 < 0.3).  A no-change cycle never shrinks
the interval, and a change cycle lands at `max(min_update_interval, 0.9 x)`,
in particular at least `min_update_interval`. -/
theorem C3_adaptive_interval_bounds (cfg : EfficientConfig)
    (h0 : 0 ≤ cfg.adaptive_update_interval)
    (h1 : 0 ≤ cfg.min_update_interval)
    (h2 : cfg.min_update_interval ≤ cfg.max_update_interval)
    (h3 : cfg.adaptive_update_interval ≤ cfg.max_update_interval) :
    (∀ os : List CycleOutcome,
      min cfg.adaptive_update_interval cfg.min_update_interval ≤
          (loop_run cfg os).current_interval ∧
        (loop_run cfg os).current_interval ≤ cfg.max_update_interval) ∧
    (∀ os : List CycleOutcome,
      (loop_run cfg os).current_interval ≤
        (loop_run cfg (os ++ [CycleOutcome.noChanges])).current_interval) ∧
    (∀ os : List CycleOutcome,
      cfg.min_update_interval ≤
        (loop_run cfg (os ++ [CycleOutcome.changes])).current_interval) := by
  have key : ∀ os : List CycleOutcome,
      min cfg.adaptive_update_interval cfg.min_update_interval ≤
          (loop_run cfg os).current_interval ∧
        (loop_run cfg os).current_interval ≤ cfg.max_update_interval := by
    have gen : ∀ (os : List CycleOutcome) (s : LoopState),
        min cfg.adaptive_update_interval cfg.min_update_interval ≤
            s.current_interval →
        s.current_interval ≤ cfg.max_update_interval →
        min cfg.adaptive_update_interval cfg.min_update_interval ≤
            (os.foldl (loop_step cfg) s).current_interval ∧
          (os.foldl (loop_step cfg) s).current_interval ≤
            cfg.max_update_interval := by
      intro os
      induction os with
      | nil => intro s hlo hhi; exact ⟨hlo, hhi⟩
      | cons o rest ih =>
          intro s hlo hhi
          have hstep := loop_step_bounds cfg h0 h1 h2 h3 s hlo hhi o
          exact ih _ hstep.1 hstep.2
    intro os
    exact gen os (loop_init cfg) (min_le_left _ _) h3
  have hsplit : ∀ (os : List CycleOutcome) (o : CycleOutcome),
      loop_run cfg (os ++ [o]) = loop_step cfg (loop_run cfg os) o := by
    intro os o
    simp [loop_run, List.foldl_append]
  refine ⟨key, ?_, ?_⟩
  · intro os
    have hb := key os
    have hpos : (0 : ℚ) ≤ (loop_run cfg os).current_interval :=
      le_trans (le_min h0 h1) hb.1
    rw [hsplit]
    by_cases hn :
        (loop_run cfg os).no_change_count + 1 > cfg.stability_frames
    · simp only [loop_step, hn, if_pos]
      exact le_min hb.2 (le_mul_of_one_le_right hpos (by norm_num))
    · simp only [loop_step, hn, if_neg, not_false_iff]
      exact le_refl _
  · intro os
    rw [hsplit]
    exact le_max_left _ _

/-- Witness for `C3_adaptive_interval_bounds` at the shipped defaults and a
single quiet cycle. -/
theorem C3_adaptive_interval_bounds_witness :
    ((0 : ℚ) ≤ defaultEfficientConfig.adaptive_update_interval ∧
      (0 : ℚ) ≤ defaultEfficientConfig.min_update_interval ∧
      defaultEfficientConfig.min_update_interval ≤
        defaultEfficientConfig.max_update_interval ∧
      defaultEfficientConfig.adaptive_update_interval ≤
        defaultEfficientConfig.max_update_interval) ∧
    (min defaultEfficientConfig.adaptive_update_interval
        defaultEfficientConfig.min_update_interval ≤
      (loop_run defaultEfficientConfig
        [CycleOutcome.noChanges]).current_interval ∧
      (loop_run defaultEfficientConfig
        [CycleOutcome.noChanges]).current_interval ≤
        defaultEfficientConfig.max_update_interval) :=
  ⟨⟨by norm_num [defaultEfficientConfig], by norm_num [defaultEfficientConfig],
    by norm_num [defaultEfficientConfig], by norm_num [defaultEfficientConfig]⟩,
    (C3_adaptive_interval_bounds defaultEfficientConfig
      (by norm_num [defaultEfficientConfig])
      (by norm_num [defaultEfficientConfig])
      (by norm_num [defaultEfficientConfig])
      (by norm_num [defaultEfficientConfig])).1 [CycleOutcome.noChanges]⟩

/-- Counterexample to C3 as stated: the very first wait of `_update_loop`
already uses `current_interval = adaptive_update_interval = 0.1`, strictly
below `min_update_interval = 0.3`, so the interval is not always within
`[min_update_interval, max_update_interval]`. -/
theorem C3_first_wait_below_min :
    (loop_run defaultEfficientConfig []).current_interval <
      defaultEfficientConfig.min_update_interval := by
  norm_num [loop_run, loop_init, defaultEfficientConfig]

/-- C6 — corrected.  For non-constant data (`min < max`) the claim holds:
once a channel has more than `stability_frames` updates and both data
extremes keep at least 10% of the current limit range away from the
respective boundary, `_calculate_optimal_y_limits` returns the stored
`y_limits` unchanged.  Constant data is excluded: it takes the
constant-data branch first (see `C6_constant_data_bypasses_stability`). -/
theorem C6_axis_stability (cfg : EfficientConfig) (data : List ℚ)
    (state : ChannelState)
    (h1 : listMin data < listMax data)
    (h2 : cfg.stability_frames < state.update_count)
    (h3 : state.y_limits.1 + (state.y_limits.2 - state.y_limits.1) * (1/10) ≤
      listMin data)
    (h4 : listMax data ≤
      state.y_limits.2 - (state.y_limits.2 - state.y_limits.1) * (1/10)) :
    calculate_optimal_y_limits cfg data state = state.y_limits := by
  have hne : listMin data ≠ listMax data := ne_of_lt h1
  have hexp : needs_axis_expansion (listMin data) (listMax data)
      state.y_limits = false := by
    simp only [needs_axis_expansion, decide_eq_false_iff_not, not_or, not_lt]
    exact ⟨h3, h4⟩
  simp only [calculate_optimal_y_limits]
  rw [if_neg hne, if_pos ⟨h2, hexp⟩]

/-- Witness for `C6_axis_stability`: limits `(0, 100)`, data spanning
`[40, 60]`, seventh update. -/
theorem C6_axis_stability_witness :
    (listMin [(40 : ℚ), 60] < listMax [(40 : ℚ), 60] ∧
      defaultEfficientConfig.stability_frames <
        ({ y_limits := (0, 100), update_count := 6 } :
          ChannelState).update_count) ∧
    calculate_optimal_y_limits defaultEfficientConfig [40, 60]
      { y_limits := (0, 100), update_count := 6 } = (0, 100) :=
  ⟨⟨by norm_num [listMin, listMax], by norm_num [defaultEfficientConfig]⟩,
    C6_axis_stability defaultEfficientConfig [40, 60]
      { y_limits := (0, 100), update_count := 6 }
      (by norm_num [listMin, listMax])
      (by norm_num [defaultEfficientConfig])
      (by norm_num [listMin])
      (by norm_num [listMax])⟩

/-- Counterexample to C6 as stated: a constant reading (`[50, 50]`) whose
value sits squarely in the inner 80% of the stored limits `(0, 100)` of a
channel past `stability_frames` updates is *not* answered with the existing
limits — the constant-data branch of `_calculate_optimal_y_limits` runs
first and returns `(45, 55)`. -/
theorem C6_constant_data_bypasses_stability :
    (defaultEfficientConfig.stability_frames <
        ({ y_limits := (0, 100), update_count := 6 } :
          ChannelState).update_count ∧
      (0 : ℚ) + ((100 : ℚ) - 0) * (1/10) ≤ listMin [(50 : ℚ), 50] ∧
      listMax [(50 : ℚ), 50] ≤ (100 : ℚ) - ((100 : ℚ) - 0) * (1/10)) ∧
    calculate_optimal_y_limits defaultEfficientConfig [50, 50]
        { y_limits := (0, 100), update_count := 6 } ≠ ((0 : ℚ), (100 : ℚ)) := by
  refine ⟨⟨by norm_num [defaultEfficientConfig], by norm_num [listMin],
    by norm_num [listMax]⟩, ?_⟩
  norm_num [calculate_optimal_y_limits, listMin, listMax,
    defaultEfficientConfig]

/-- C7 — corrected.  For a non-constant 1D reading the full build sets the
y-limits to `(data_min - margin, data_max + 2 * margin)` with `margin` 5%
of the data range: the headroom above the data maximum is twice the margin
below the minimum, not equal to it as claimed. -/
theorem C7_build_y_limits (data : List ℚ)
    (h : listMin data < listMax data) :
    create_plot_y_limits data =
      (listMin data - (listMax data - listMin data) * (5/100),
       listMax data + 2 * ((listMax data - listMin data) * (5/100))) := by
  simp only [create_plot_y_limits]
  rw [if_neg (ne_of_lt h)]

/-- Witness for `C7_build_y_limits` on the reading `[0, 10]`. -/
theorem C7_build_y_limits_witness :
    listMin [(0 : ℚ), 10] < listMax [(0 : ℚ), 10] ∧
    create_plot_y_limits [(0 : ℚ), 10] =
      (listMin [(0 : ℚ), 10] -
        (listMax [(0 : ℚ), 10] - listMin [(0 : ℚ), 10]) * (5/100),
       listMax [(0 : ℚ), 10] +
        2 * ((listMax [(0 : ℚ), 10] - listMin [(0 : ℚ), 10]) * (5/100))) :=
  ⟨by norm_num [listMin, listMax],
    C7_build_y_limits [(0 : ℚ), 10] (by norm_num [listMin, listMax])⟩

/-- Counterexample to C7 as stated: for the reading `[0, 10]` the claimed
symmetric limits would be `(-0.5, 10.5)`, but `_create_figure_and_plots`
sets `(-0.5, 11)` — the upper margin is doubled. -/
theorem C7_upper_margin_doubled :
    create_plot_y_limits [(0 : ℚ), 10] ≠ (-(1/2 : ℚ), 21/2) ∧
    create_plot_y_limits [(0 : ℚ), 10] = (-(1/2 : ℚ), 11) := by
  constructor <;> norm_num [create_plot_y_limits, listMin, listMax]

/-- C10 — confirmed.  Calling `start_efficient_updates` while the system is
already running returns the state untouched (no thread is spawned, no flag
or cache is modified), and consequently a repeated start is idempotent:
at most one update loop ever exists. -/
theorem C10_start_idempotent (s s' : UpdateSystem)
    (h : s.update_running = true) :
    start_efficient_updates s = s ∧
    start_efficient_updates (start_efficient_updates s') =
      start_efficient_updates s' := by
  have one : ∀ t : UpdateSystem, t.update_running = true →
      start_efficient_updates t = t := by
    intro t ht
    simp [start_efficient_updates, ht]
  refine ⟨one s h, one _ ?_⟩
  by_cases h0 : s'.update_running
  · rw [one s' h0]
    exact h0
  · simp [start_efficient_updates, h0]

/-- Witness for `C10_start_idempotent` on a running system. -/
theorem C10_start_idempotent_witness :
    ({ update_running := true } : UpdateSystem).update_running = true ∧
    start_efficient_updates { update_running := true } =
      ({ update_running := true } : UpdateSystem) :=
  ⟨rfl, (C10_start_idempotent { update_running := true } {} rfl).1⟩

/-- C5 — corrected.  An exception during the update body of `update_plot`
does trigger `create_display` as recovery, but an exception inside the
scheduler's batched UI callback (`update_on_main_thread` in
`_update_changed_channels`) is only logged: the callback adds no rebuild
and no other recovery operation (see
`C5_patch_callback_exception_only_logged`). -/
theorem C5_patch_exception_recovery (done : List RenderOp)
    (rebuildFails : Bool) :
    RenderOp.createDisplay ∈
        update_plot_exception_handler done true rebuildFails ∧
    ∀ op ∈ update_changed_channels_handler done true,
      op ∈ done ∨ op = RenderOp.logError := by
  constructor
  · simp [update_plot_exception_handler]
  · intro op hop
    simp only [update_changed_channels_handler, if_pos, List.mem_append,
      List.mem_singleton] at hop
    exact hop

/-- Witness for `C5_patch_exception_recovery` with an empty body trace. -/
theorem C5_patch_exception_recovery_witness :
    RenderOp.createDisplay ∈ update_plot_exception_handler [] true false :=
  (C5_patch_exception_recovery [] false).1

/-- Counterexample to C5 as stated: when the batched patch callback of
`_update_changed_channels` fails after having patched channel 1's line, the
handler appends only a log entry — no `create_display`/`force_rebuild`
recovery happens on this path. -/
theorem C5_patch_callback_exception_only_logged :
    update_changed_channels_handler [RenderOp.setLineData 1] true =
      [RenderOp.setLineData 1, RenderOp.logError] ∧
    RenderOp.createDisplay ∉
      update_changed_channels_handler [RenderOp.setLineData 1] true := by
  constructor
  · rfl
  · decide

/-- C8 — confirmed.  A channel reporting a nonzero `row_width` (`xdim`)
that evenly divides its `range` has its length-`range` block reshaped to a
2D array of shape `(range / xdim, xdim)` and flagged 2D, and the full build
then creates exactly one image entity and no line entity for it; a zero
`row_width` leaves the block 1D and unflagged. -/
theorem C8_reshape_and_image_entity (range_val xdim : ℕ)
    (block block0 : List ℚ)
    (h1 : 0 < xdim) (h2 : xdim ∣ range_val) (h3 : block.length = range_val)
    (h4 : 0 < range_val)
    (h5 : block.any (fun x => decide (x ≠ 0)) = true)
    (h6 : block0.any (fun x => decide (x ≠ 0)) = true) :
    (∃ m, process_channel ⟨range_val, xdim⟩ block =
        some (NDArray.two m, true) ∧
      ndshape (NDArray.two m) = [range_val / xdim, xdim] ∧
      create_display_entities [(3, NDArray.two m, true)] =
        [(3, EntityKind.image)]) ∧
    process_channel ⟨range_val, 0⟩ block0 =
      some (NDArray.one block0, false) := by
  obtain ⟨k, hk⟩ := h2
  have hkpos : 0 < k := by
    rcases Nat.eq_zero_or_pos k with h | h
    · subst h; simp [hk] at h4
    · exact h
  have hydim : range_val / xdim = k := by
    rw [hk, Nat.mul_div_cancel_left k h1]
  have hxle : xdim ≤ range_val := by
    calc xdim = xdim * 1 := (Nat.mul_one xdim).symm
    _ ≤ xdim * k := Nat.mul_le_mul_left xdim hkpos
    _ = range_val := hk.symm
  have hdvd : k ∣ block.length := by
    rw [h3, hk]
    exact Dvd.intro xdim (Nat.mul_comm k xdim)
  have hcols : block.length / k = xdim := by
    rw [h3, hk, Nat.mul_div_cancel xdim hkpos]
  constructor
  · refine ⟨reshape2d k xdim block, ?_, ?_, ?_⟩
    · simp only [process_channel, h5, if_true, h1, if_pos, hydim, hcols]
      rw [if_pos ⟨hkpos, hdvd⟩]
    · have hcle : xdim ≤ block.length := h3 ▸ hxle
      simp only [ndshape, reshape2d_length,
        reshape2d_headD_length k xdim block hkpos hcle, hydim]
    · simp [create_display_entities, ndim]
  · unfold process_channel
    rw [if_pos h6]
    simp

/-- Witness for `C8_reshape_and_image_entity` with `range = 4`,
`row_width = 2`, an active block `[1, 0, 0, 0]`, and a 1D block `[5]`. -/
theorem C8_reshape_and_image_entity_witness :
    ((0 < 2 ∧ 2 ∣ 4 ∧ ([(1 : ℚ), 0, 0, 0]).length = 4) ∧
      (∃ m, process_channel ⟨4, 2⟩ [(1 : ℚ), 0, 0, 0] =
          some (NDArray.two m, true) ∧
        ndshape (NDArray.two m) = [4 / 2, 2] ∧
        create_display_entities [(3, NDArray.two m, true)] =
          [(3, EntityKind.image)])) ∧
    process_channel ⟨4, 0⟩ [(5 : ℚ)] = some (NDArray.one [(5 : ℚ)], false) := by
  have h := C8_reshape_and_image_entity 4 2 [(1 : ℚ), 0, 0, 0] [(5 : ℚ)]
    (by decide) (by decide) (by simp) (by decide)
    (by simp) (by simp)
  exact ⟨⟨⟨by decide, by decide, by simp⟩, h.1⟩, h.2⟩

/-- After any run of `_detect_1d_changes`, the channel's stored hash is the
hash of the data classified (it either matched already or was written). -/
theorem detect_1d_state_after (cfg : EfficientConfig) (now : ℚ) (ch : ℕ)
    (d : NDArray) (states : ChannelStates) :
    ∃ st, getA ch (detect_1d_changes cfg now ch d states).1 = some st ∧
      st.data_hash = some (ndFlatten (squeeze1d d)) := by
  simp only [detect_1d_changes]
  rcases hG : getA ch states with _ | st0
  · simp only [hG, Option.isSome_none, Bool.false_eq_true, if_false,
      getA_setA_self, Option.getD_some]
    rw [if_neg (by simp)]
    exact ⟨_, getA_setA_self .., rfl⟩
  · simp only [hG, Option.isSome_some, if_true, Option.getD_some]
    by_cases hm : some (ndFlatten (squeeze1d d)) = st0.data_hash
    · rw [if_pos hm]
      exact ⟨st0, hG, hm.symm⟩
    · rw [if_neg hm]
      exact ⟨_, getA_setA_self .., rfl⟩

/-- Running `_detect_1d_changes` on a channel whose stored hash already matches the
reading's hash reports `NO_CHANGE` and leaves the state map untouched. -/
theorem detect_1d_nochange_of_hash (cfg : EfficientConfig) (now : ℚ)
    (ch : ℕ) (d : NDArray) (states : ChannelStates) (st : ChannelState)
    (h : getA ch states = some st)
    (hh : st.data_hash = some (ndFlatten (squeeze1d d))) :
    detect_1d_changes cfg now ch d states = (states, ChangeType.NO_CHANGE) := by
  simp only [detect_1d_changes, h, Option.isSome_some, if_true,
    Option.getD_some, hh]

/-- After `_detect_2d_changes` ran on genuinely 2D data, the stored shape
matches the reading and the stored signature is within tolerance of the
reading's signature (it either already was, or was overwritten). -/
theorem detect_2d_state_after (cfg : EfficientConfig) (now : ℚ) (ch : ℕ)
    (m : List (List ℚ)) (states : ChannelStates)
    (hr : 0 ≤ cfg.change_threshold) :
    ∃ st, getA ch (detect_2d_changes cfg now ch (NDArray.two m) states).1 =
        some st ∧
      ndshape (NDArray.two m) = st.shape ∧
      allclose4 cfg.change_threshold
        (listMin (ndFlatten (NDArray.two m)),
         listMax (ndFlatten (NDArray.two m)),
         listMean (ndFlatten (NDArray.two m)),
         listVar (ndFlatten (NDArray.two m)))
        st.statistical_signature = true := by
  simp only [detect_2d_changes, ndim]
  norm_num
  rcases hG : getA ch states with _ | st0
  · simp only [hG, Option.isSome_none, Bool.false_eq_true, if_false,
      getA_setA_self, Option.getD_some]
    rw [if_neg (by simp [ndshape])]
    exact ⟨_, getA_setA_self .., rfl, allclose4_refl hr _⟩
  · simp only [hG, Option.isSome_some, if_true, Option.getD_some]
    by_cases hm : ndshape (NDArray.two m) = st0.shape ∧
        allclose4 cfg.change_threshold
          (listMin (ndFlatten (NDArray.two m)),
           listMax (ndFlatten (NDArray.two m)),
           listMean (ndFlatten (NDArray.two m)),
           listVar (ndFlatten (NDArray.two m)))
          st0.statistical_signature = true
    · rw [if_pos hm]
      exact ⟨st0, hG, hm.1, hm.2⟩
    · rw [if_neg hm]
      exact ⟨_, getA_setA_self .., rfl, allclose4_refl hr _⟩

/-- Running `_detect_2d_changes` on a channel whose stored shape matches and whose
stored signature is within tolerance reports `NO_CHANGE` and leaves the
state map untouched. -/
theorem detect_2d_nochange_of_close (cfg : EfficientConfig) (now : ℚ)
    (ch : ℕ) (m : List (List ℚ)) (states : ChannelStates) (st : ChannelState)
    (h : getA ch states = some st)
    (hshape : ndshape (NDArray.two m) = st.shape)
    (hclose : allclose4 cfg.change_threshold
        (listMin (ndFlatten (NDArray.two m)),
         listMax (ndFlatten (NDArray.two m)),
         listMean (ndFlatten (NDArray.two m)),
         listVar (ndFlatten (NDArray.two m)))
        st.statistical_signature = true) :
    detect_2d_changes cfg now ch (NDArray.two m) states =
      (states, ChangeType.NO_CHANGE) := by
  simp only [detect_2d_changes, ndim]
  norm_num
  simp only [h, Option.isSome_some, if_true, Option.getD_some]
  rw [if_pos ⟨hshape, hclose⟩]

/-- The classification expression in the change branches of the detectors
never yields `NO_CHANGE`. -/
theorem ite_changetype_ne (p q : Prop) [Decidable p] [Decidable q] :
    (if p then ChangeType.DIMENSION_CHANGE
     else if q then ChangeType.SCALE_CHANGE
     else ChangeType.DATA_CHANGE) ≠ ChangeType.NO_CHANGE := by
  split_ifs <;> decide

/-- Variant of `ite_changetype_ne` with the dimension test un-negated (the
shape produced after simp normalisation). -/
theorem ite_changetype_ne' (p q : Prop) [Decidable p] [Decidable q] :
    (if p then (if q then ChangeType.SCALE_CHANGE else ChangeType.DATA_CHANGE)
     else ChangeType.DIMENSION_CHANGE) ≠ ChangeType.NO_CHANGE := by
  split_ifs <;> decide

/-- C4 — confirmed.  Classifying the identical reading twice in a row
yields `NO_CHANGE` on the second call and returns the state map of the
first call unchanged — in particular no `update_count` increments on the
second call — on both the hash-based 1D path and the signature-based 2D
path (the latter needs the configured relative tolerance to be
nonnegative, which the default 0.01 is). -/
theorem C4_nochange_idempotent (cfg : EfficientConfig)
    (h : 0 ≤ cfg.change_threshold) (now₁ now₂ : ℚ) (ch : ℕ) (d : NDArray)
    (states : ChannelStates) :
    detect_1d_changes cfg now₂ ch d (detect_1d_changes cfg now₁ ch d states).1 =
      ((detect_1d_changes cfg now₁ ch d states).1, ChangeType.NO_CHANGE) ∧
    detect_2d_changes cfg now₂ ch d (detect_2d_changes cfg now₁ ch d states).1 =
      ((detect_2d_changes cfg now₁ ch d states).1, ChangeType.NO_CHANGE) := by
  constructor
  · obtain ⟨st, hget, hh⟩ := detect_1d_state_after cfg now₁ ch d states
    exact detect_1d_nochange_of_hash cfg now₂ ch d _ st hget hh
  · cases d with
    | one l => simp [detect_2d_changes, ndim]
    | two m =>
        obtain ⟨st, hget, hsh, hcl⟩ :=
          detect_2d_state_after cfg now₁ ch m states h
        exact detect_2d_nochange_of_close cfg now₂ ch m _ st hget hsh hcl

/-- Witness for `C4_nochange_idempotent`: the reading `[5]` on channel 0
classified twice from an empty state map. -/
theorem C4_nochange_idempotent_witness :
    (0 : ℚ) ≤ defaultEfficientConfig.change_threshold ∧
    detect_1d_changes defaultEfficientConfig 1 0 (NDArray.one [5])
        (detect_1d_changes defaultEfficientConfig 0 0 (NDArray.one [5]) []).1 =
      ((detect_1d_changes defaultEfficientConfig 0 0 (NDArray.one [5]) []).1,
        ChangeType.NO_CHANGE) :=
  ⟨by norm_num [defaultEfficientConfig],
    (C4_nochange_idempotent defaultEfficientConfig
      (by norm_num [defaultEfficientConfig]) 0 1 0 (NDArray.one [5]) []).1⟩

/-- C9 — confirmed.  Whenever a detector reports `NO_CHANGE` the returned
state map is exactly the input map: the channel's `ChannelState` keeps
every field (hash, shape, range, signature, timestamp, limits, count) and
no other channel's entry is touched, on both the 1D and the 2D path. -/
theorem C9_nochange_preserves_states (cfg : EfficientConfig) (now : ℚ)
    (ch : ℕ) (d : NDArray) (states : ChannelStates) :
    ((detect_1d_changes cfg now ch d states).2 = ChangeType.NO_CHANGE →
      (detect_1d_changes cfg now ch d states).1 = states) ∧
    ((detect_2d_changes cfg now ch d states).2 = ChangeType.NO_CHANGE →
      (detect_2d_changes cfg now ch d states).1 = states) := by
  constructor
  · simp only [detect_1d_changes]
    rcases hG : getA ch states with _ | st0
    · simp only [hG, Option.isSome_none, Bool.false_eq_true, if_false,
        getA_setA_self, Option.getD_some]
      rw [if_neg (by simp)]
      exact fun hcT => absurd hcT (ite_changetype_ne _ _)
    · simp only [hG, Option.isSome_some, if_true, Option.getD_some]
      by_cases hm : some (ndFlatten (squeeze1d d)) = st0.data_hash
      · rw [if_pos hm]
        exact fun _ => rfl
      · rw [if_neg hm]
        exact fun hcT => absurd hcT (ite_changetype_ne _ _)
  · cases d with
    | one l =>
        simp [detect_2d_changes, ndim]
    | two m =>
        simp only [detect_2d_changes, ndim]
        norm_num
        rcases hG : getA ch states with _ | st0
        · simp only [hG, Option.isSome_none, Bool.false_eq_true, if_false,
            getA_setA_self, Option.getD_some]
          rw [if_neg (by simp [ndshape])]
          exact fun hcT => absurd hcT (by split_ifs <;> simp)
        · simp only [hG, Option.isSome_some, if_true, Option.getD_some]
          by_cases hm : ndshape (NDArray.two m) = st0.shape ∧
              allclose4 cfg.change_threshold
                (listMin (ndFlatten (NDArray.two m)),
                 listMax (ndFlatten (NDArray.two m)),
                 listMean (ndFlatten (NDArray.two m)),
                 listVar (ndFlatten (NDArray.two m)))
                st0.statistical_signature = true
          · rw [if_pos hm]
            exact fun _ => rfl
          · rw [if_neg hm]
            exact fun hcT => absurd hcT (by split_ifs <;> simp)

/-- Witness for `C9_nochange_preserves_states`: a cached channel 0 holding
the hash of `[5]` re-reads `[5]`. -/
theorem C9_nochange_preserves_states_witness :
    (detect_1d_changes defaultEfficientConfig 7 0 (NDArray.one [5])
        [(0, { data_hash := some [5], shape := [1] })]).2 =
      ChangeType.NO_CHANGE ∧
    (detect_1d_changes defaultEfficientConfig 7 0 (NDArray.one [5])
        [(0, { data_hash := some [5], shape := [1] })]).1 =
      [(0, { data_hash := some [5], shape := [1] })] := by
  have h2 : (detect_1d_changes defaultEfficientConfig 7 0 (NDArray.one [5])
      [(0, { data_hash := some [5], shape := [1] })]).2 =
      ChangeType.NO_CHANGE := by
    norm_num [detect_1d_changes, getA, squeeze1d, ndFlatten]
  exact ⟨h2,
    (C9_nochange_preserves_states defaultEfficientConfig 7 0 (NDArray.one [5])
      [(0, { data_hash := some [5], shape := [1] })]).1 h2⟩

/-- C2 — corrected.  The classification half of the claim holds: a reading
whose shape differs from the cached shape is classified
`DIMENSION_CHANGE` by both detectors (the 1D path under the hash-integrity
hypothesis that a stored hash was computed from data of the stored shape,
which every state the detector itself writes satisfies).  The handling
half fails: in the scheduler path a `DIMENSION_CHANGE` is handled by
`_update_1d_channel_efficient` / `_update_2d_channel_efficient`, which
patch the existing entities in place (`set_data`, axis limits, image
refresh) and never invoke `create_display`; only the separate shape check
inside `update_plot` rebuilds (see
`C2_dimension_change_patched_not_rebuilt`). -/
theorem C2_dimension_change_classify_and_patch (cfg : EfficientConfig)
    (now : ℚ) (ch : ℕ) (states : ChannelStates) :
    (∀ l : List ℚ,
      (∀ l', (stateOf states ch).data_hash = some l' →
        (stateOf states ch).shape = [l'.length]) →
      [l.length] ≠ (stateOf states ch).shape →
      (detect_1d_changes cfg now ch (NDArray.one l) states).2 =
        ChangeType.DIMENSION_CHANGE) ∧
    (∀ m : List (List ℚ),
      ndshape (NDArray.two m) ≠ (stateOf states ch).shape →
      (detect_2d_changes cfg now ch (NDArray.two m) states).2 =
        ChangeType.DIMENSION_CHANGE) ∧
    (∀ lines axes cache change d state,
      RenderOp.createDisplay ∉
        (update_1d_channel_efficient cfg lines axes cache ch change
          d state).1) ∧
    (∀ images change,
      RenderOp.createDisplay ∉ update_2d_channel_efficient images ch change) ∧
    (∀ lines axes cache d state, ch ∈ lines → ch ∈ axes →
      RenderOp.setLineData ch ∈
        (update_1d_channel_efficient cfg lines axes cache ch
          ChangeType.DIMENSION_CHANGE d state).1) := by
  refine ⟨?_, ?_, ?_, ?_, ?_⟩
  · intro l hinv hsh
    simp only [detect_1d_changes]
    rcases hG : getA ch states with _ | st0
    · have hst : stateOf states ch = {} := by simp [stateOf, hG]
      rw [hst] at hsh
      simp only [hG, Option.isSome_none, Bool.false_eq_true, if_false,
        getA_setA_self, Option.getD_some]
      rw [if_neg (by simp)]
      simp [squeeze1d, ndshape]
    · have hst : stateOf states ch = st0 := by simp [stateOf, hG]
      rw [hst] at hsh hinv
      simp only [hG, Option.isSome_some, if_true, Option.getD_some]
      have hm : ¬ (some (ndFlatten (squeeze1d (NDArray.one l))) =
          st0.data_hash) := by
        intro hmm
        exact hsh (hinv l hmm.symm).symm
      rw [if_neg hm]
      have hcond : ndshape (squeeze1d (NDArray.one l)) ≠ st0.shape := by
        simpa [squeeze1d, ndshape] using hsh
      simp [hcond]
  · intro m hsh
    simp only [detect_2d_changes, ndim]
    norm_num
    rcases hG : getA ch states with _ | st0
    · have hst : stateOf states ch = {} := by simp [stateOf, hG]
      simp only [hG, Option.isSome_none, Bool.false_eq_true, if_false,
        getA_setA_self, Option.getD_some]
      rw [if_neg (by simp [ndshape])]
      simp [ndshape]
    · have hst : stateOf states ch = st0 := by simp [stateOf, hG]
      rw [hst] at hsh
      simp only [hG, Option.isSome_some, if_true, Option.getD_some]
      rw [if_neg (fun hc => hsh hc.1)]
      simp [hsh]
  · intro lines axes cache change d state
    simp only [update_1d_channel_efficient]
    split_ifs <;> simp
  · intro images change
    simp only [update_2d_channel_efficient]
    split_ifs <;> simp
  · intro lines axes cache d state h1 h2
    simp only [update_1d_channel_efficient]
    rw [if_pos ⟨h1, h2⟩]
    exact List.mem_cons_self _ _

/-- Witness for `C2_dimension_change_classify_and_patch`: channel 0 cached
with shape `(3,)` reads four samples; the patch handler with line and axis
present rewrites the line data. -/
theorem C2_dimension_change_witness :
    ([([(1 : ℚ), 2, 3, 4].length)] ≠
        (stateOf [(0, { data_hash := some [1, 2, 3], shape := [3] })]
          0).shape) ∧
    (detect_1d_changes defaultEfficientConfig 0 0 (NDArray.one [1, 2, 3, 4])
        [(0, { data_hash := some [1, 2, 3], shape := [3] })]).2 =
      ChangeType.DIMENSION_CHANGE ∧
    RenderOp.setLineData 0 ∈
      (update_1d_channel_efficient defaultEfficientConfig [0] [0] [] 0
        ChangeType.DIMENSION_CHANGE (NDArray.one [1, 2, 3, 4])
        { data_hash := some [1, 2, 3], shape := [3] }).1 := by
  have h :=
    C2_dimension_change_classify_and_patch defaultEfficientConfig 0 0
      [(0, { data_hash := some [1, 2, 3], shape := [3] })]
  refine ⟨by decide, ?_, ?_⟩
  · exact h.1 [1, 2, 3, 4]
      (fun l' hl => by
        rw [show (stateOf [(0, { data_hash := some [1, 2, 3], shape := [3] })]
            0).data_hash = some [1, 2, 3] from rfl] at hl
        cases hl
        rfl)
      (by decide)
  · exact h.2.2.2.2 [0] [0] [] (NDArray.one [1, 2, 3, 4])
      { data_hash := some [1, 2, 3], shape := [3] }
      (by decide) (by decide)

/-- Counterexample to C2 as stated: with channel 0 cached at shape `(3,)`
and a new length-4 reading, classification is `DIMENSION_CHANGE`, yet the
scheduler's handler patches the line in place (`setLineData`) and performs
no `create_display` — the claimed "always rebuild, never patch" handling
is false. -/
theorem C2_dimension_change_patched_not_rebuilt :
    (detect_1d_changes defaultEfficientConfig 0 0 (NDArray.one [1, 2, 3, 4])
        [(0, { data_hash := some [1, 2, 3], shape := [3] })]).2 =
      ChangeType.DIMENSION_CHANGE ∧
    RenderOp.setLineData 0 ∈
      (update_1d_channel_efficient defaultEfficientConfig [0] [0] [] 0
        ChangeType.DIMENSION_CHANGE (NDArray.one [1, 2, 3, 4])
        { data_hash := some [1, 2, 3], shape := [3] }).1 ∧
    RenderOp.createDisplay ∉
      (update_1d_channel_efficient defaultEfficientConfig [0] [0] [] 0
        ChangeType.DIMENSION_CHANGE (NDArray.one [1, 2, 3, 4])
        { data_hash := some [1, 2, 3], shape := [3] }).1 := by
  refine ⟨?_, ?_, ?_⟩
  · norm_num [detect_1d_changes, getA, squeeze1d, ndFlatten, ndshape]
  · simp only [update_1d_channel_efficient]
    rw [if_pos ⟨by decide, by decide⟩]
    exact List.mem_cons_self _ _
  · simp only [update_1d_channel_efficient]
    split_ifs <;> simp

/-- Every entry collected by the classification loop of
`_check_and_update_channels` carries a non-`NO_CHANGE` classification. -/
theorem classify_channels_non_nochange (cfg : EfficientConfig) (now : ℚ) :
    ∀ (poll : List (ℕ × NDArray × Bool)) (states : ChannelStates)
      (c : ℕ × ChangeType × Bool),
      c ∈ (classify_channels cfg now poll states).2 →
      c.2.1 ≠ ChangeType.NO_CHANGE := by
  intro poll
  induction poll with
  | nil =>
      intro states c hc
      simp [classify_channels] at hc
  | cons p rest ih =>
      intro states c hc
      obtain ⟨ch, d, is2d⟩ := p
      simp only [classify_channels, List.mem_append] at hc
      rcases hc with hc | hc
      · by_cases hnc : (if is2d then detect_2d_changes cfg now ch d states
            else detect_1d_changes cfg now ch d states).2 =
            ChangeType.NO_CHANGE
        · rw [if_pos hnc] at hc
          simp at hc
        · rw [if_neg hnc] at hc
          simp only [List.mem_singleton] at hc
          rw [hc]
          exact hnc
      · exact ih _ c hc

/-- C1 — corrected.  In `_check_and_update_channels` the batched patch
callback is scheduled *before* the channel-set comparison and contains
every channel classified as changed — including channels that just
appeared — so a cycle that also schedules `force_rebuild` still schedules
patches.  Moreover the comparison is against the key set of the state map
*after* classification (which inserts default states for new channels), not
the key set at the start of the cycle: `force_rebuild` is scheduled exactly
when the polled set differs from that post-classification key set.  The
concrete `{0,1} → {0,2}` scenario is settled in
`C1_patch_scheduled_alongside_rebuild`. -/
theorem C1_scheduler_actions (cfg : EfficientConfig) (now : ℚ)
    (poll : List (ℕ × NDArray × Bool)) (states : ChannelStates) :
    (UIAction.forceRebuild ∈
        (check_and_update_channels cfg now poll states).2.1 ↔
      sameKeySet (poll.map Prod.fst)
        ((check_and_update_channels cfg now poll states).1.map Prod.fst) =
        false) ∧
    (∀ b, UIAction.patchBatch b ∈
        (check_and_update_channels cfg now poll states).2.1 →
      b ≠ [] ∧ ∀ c ∈ b, c.2.1 ≠ ChangeType.NO_CHANGE) := by
  have hpatch : ∀ b, UIAction.patchBatch b ∈
      (if (classify_channels cfg now poll states).2 = []
        then ([] : List UIAction)
        else [UIAction.patchBatch (classify_channels cfg now poll states).2]) →
      b ≠ [] ∧ ∀ c ∈ b, c.2.1 ≠ ChangeType.NO_CHANGE := by
    intro b hb
    by_cases hz : (classify_channels cfg now poll states).2 = []
    · rw [if_pos hz] at hb
      simp at hb
    · rw [if_neg hz] at hb
      simp only [List.mem_singleton, UIAction.patchBatch.injEq] at hb
      subst hb
      exact ⟨hz, fun c hcmem =>
        classify_channels_non_nochange cfg now poll states c hcmem⟩
  simp only [check_and_update_channels]
  by_cases hsk : sameKeySet (poll.map Prod.fst)
      ((classify_channels cfg now poll states).1.map Prod.fst) = true
  · rw [if_pos hsk]
    refine ⟨⟨fun hmem => ?_, fun hfalse => ?_⟩, hpatch⟩
    · exfalso
      revert hmem
      by_cases hz : (classify_channels cfg now poll states).2 = [] <;>
        simp [hz]
    · rw [hsk] at hfalse
      simp at hfalse
  · rw [if_neg hsk]
    refine ⟨⟨fun _ => ?_, fun _ => ?_⟩, ?_⟩
    · simpa using hsk
    · exact List.mem_append_right _ (List.mem_singleton_self _)
    · intro b hb
      rcases List.mem_append.mp hb with hb | hb
      · exact hpatch b hb
      · simp at hb

/-- Witness for `C1_scheduler_actions`: an empty poll against a cached
channel 1 schedules `force_rebuild`. -/
theorem C1_scheduler_actions_witness :
    UIAction.forceRebuild ∈
      (check_and_update_channels defaultEfficientConfig 0 []
        [(1, {})]).2.1 :=
  (C1_scheduler_actions defaultEfficientConfig 0 [] [(1, {})]).1.mpr
    (by decide)

/-- Counterexample to C1 as stated: previous active set `{0, 1}` (cached
states for channels 0 and 1, channel 0 caching the hash of its unchanged
reading), new poll active set `{0, 2}`.  `force_rebuild` is scheduled, as
the claim says, but the cycle also schedules the batched patch callback for
channel 2 (classified `DIMENSION_CHANGE` as a fresh channel) — contradicting
"patch is attempted on neither channel 1 nor channel 2". -/
theorem C1_patch_scheduled_alongside_rebuild :
    UIAction.forceRebuild ∈
      (check_and_update_channels defaultEfficientConfig 0
        [(0, NDArray.one [1, 2], false), (2, NDArray.one [3, 4], false)]
        [(0, { data_hash := some [1, 2], shape := [2] }), (1, {})]).2.1 ∧
    UIAction.patchBatch [(2, ChangeType.DIMENSION_CHANGE, false)] ∈
      (check_and_update_channels defaultEfficientConfig 0
        [(0, NDArray.one [1, 2], false), (2, NDArray.one [3, 4], false)]
        [(0, { data_hash := some [1, 2], shape := [2] }), (1, {})]).2.1 := by
  have hd : ChangeType.DIMENSION_CHANGE ≠ ChangeType.NO_CHANGE := by decide
  norm_num [check_and_update_channels, classify_channels, detect_1d_changes,
    getA, setA, sameKeySet, squeeze1d, ndFlatten, ndshape, listMin, listMax,
    listMean, listVar, defaultEfficientConfig, Option.some_ne_none, hd]
